import Mathlib

/-!
Verification of `jupyter_client/launcher.py` (kernel process launcher).

The Python module is shallowly embedded below.  Python dictionaries are
modelled as association lists with in-place-update semantics; dictionary
*objects* live in an explicit heap (`Heap`) so that aliasing and in-place
mutation — which several claims are about — are visible.  The OS spawn
primitive (`subprocess.Popen` / `asyncio.create_subprocess_exec`) is
modelled by an outcome oracle: either it returns a process record or it
raises the exception supplied by the oracle.
-/

namespace JupyterLauncher

/-! ## Python dictionaries (string-keyed association lists) -/

/-- Lookup in a Python dict: `d.get(k)` / `d[k]`. -/
def dget {α : Type} : List (String × α) → String → Option α
  | [], _ => none
  | (k, v) :: rest, key => if k = key then some v else dget rest key

/-- In-place update of a Python dict: `d[k] = v`.  An existing key keeps its
position and gets the new value; a new key is appended (Python dicts preserve
insertion order). -/
def dset {α : Type} : List (String × α) → String → α → List (String × α)
  | [], key, val => [(key, val)]
  | (k, v) :: rest, key, val =>
      if k = key then (k, val) :: rest else (k, v) :: dset rest key val

/-- Environment mappings: Python `Dict[str, str]`. -/
abbrev EnvMap := List (String × String)

/-! ## A heap of environment-dictionary objects

`env` objects are mutated in place by the source (`env["JPY_PARENT_PID"] = ...`),
and `os.environ.copy()` allocates a fresh object.  References are `Nat`s. -/

structure Heap where
  store : Nat → EnvMap
  next : Nat

def Heap.get (h : Heap) (r : Nat) : EnvMap := h.store r

/-- `d[k] = v` on the dict object at reference `r`. -/
def Heap.setKey (h : Heap) (r : Nat) (k v : String) : Heap :=
  { h with store := fun i => if i = r then dset (h.store i) k v else h.store i }

/-- `d.copy()`: allocate a fresh dict object holding the same entries. -/
def Heap.copyDict (h : Heap) (r : Nat) : Heap × Nat :=
  ({ store := fun i => if i = h.next then h.store r else h.store i,
     next := h.next + 1 }, h.next)

/-! ## Values appearing in the `Popen` keyword-argument dictionary -/

inductive PyVal : Type
  | pipe                      -- `subprocess.PIPE`
  | blackhole                 -- the `open(os.devnull, "w")` file object
  | stream (fd : Nat)         -- a caller-supplied stream handle
  | nonePy                    -- Python `None`
  | str (s : String)
  | envRef (r : Nat)          -- a reference to an environment dict object
  | bool (b : Bool)
  | int (n : Nat)
  deriving DecidableEq

/-- The `Popen` keyword-argument dictionary. -/
abbrev Kwargs := List (String × PyVal)

/-! ## Ambient system state read by the module -/

/-- Process-wide facts the launcher reads: the platform test
`sys.platform == "win32"`, the `sys.executable.endswith("pythonw.exe")` test,
`os.getpid()`, the handle produced by `DuplicateHandle` (an external `_winapi`
primitive), the handle produced by `create_interrupt_event`, the reference to
the `os.environ` object, `os.defpath`, and the data `os.path.expanduser`
consults — on POSIX the `HOME` value and the password database, on win32 the
`USERPROFILE`/`HOMEPATH`/`HOMEDRIVE`/`USERNAME` environment values.
`loggerFails` is true when `get_logger().error` itself raises. -/
structure Sys where
  isWin32 : Bool
  pythonw : Bool
  pid : Nat
  parentHandle : Nat
  interruptEvent : Nat
  osEnvironRef : Nat
  defpath : String
  home : String
  userdb : String → Option String
  userprofile : Option String
  homepath : Option String
  homedrive : Option String
  username : Option String
  loggerFails : Bool

/-- Modelled from the spec: `create_interrupt_event` lives in
`win_interrupt.py`, which is not under `src/`.  Per the spec it "always
create[s] a new named interrupt object, returning its textual form for
environment injection"; the allocated handle is the ambient value
`sys.interruptEvent`, injected into the environment as `str(handle)`. -/
def create_interrupt_event (sys : Sys) : Nat := sys.interruptEvent

/-- `_winapi.CREATE_NEW_PROCESS_GROUP`. -/
def CREATE_NEW_PROCESS_GROUP : Nat := 0x200

/-- `CREATE_NO_WINDOW`. -/
def CREATE_NO_WINDOW : Nat := 0x08000000

/-! ## Arguments of `_prepare_process_args` / the launch functions -/

structure PrepArgs where
  stdin : Option Nat
  stdout : Option Nat
  stderr : Option Nat
  env : Option Nat          -- reference to a caller-supplied env dict, if any
  independent : Bool
  cwd : Option String
  kw : Kwargs               -- the `**kw` bag
  deriving DecidableEq

/-- Result of `_prepare_process_args`: the kwargs dict, the interrupt event
(`None` on POSIX), the heap after the env mutations, and the reference held by
the local variable `env` (the dict stored under `kwargs["env"]`). -/
structure Prepared where
  kwargs : Kwargs
  interrupt_event : Option Nat
  heap : Heap
  envRef : Nat

/-- Translation of `_prepare_process_args` (launcher.py lines 161-273). -/
def _prepare_process_args (sys : Sys) (h : Heap) (a : PrepArgs) : Prepared :=
  -- _stdin = PIPE if stdin is None else stdin
  let _stdin : PyVal := match a.stdin with
    | none => PyVal.pipe
    | some fd => PyVal.stream fd
  -- redirect_out = sys.executable.endswith("pythonw.exe")
  let redirect_out := sys.pythonw
  -- _stdout = blackhole if stdout is None else stdout   (when redirect_out)
  let _stdout : PyVal :=
    if redirect_out then
      match a.stdout with
      | none => PyVal.blackhole
      | some fd => PyVal.stream fd
    else
      match a.stdout with
      | none => PyVal.nonePy
      | some fd => PyVal.stream fd
  let _stderr : PyVal :=
    if redirect_out then
      match a.stderr with
      | none => PyVal.blackhole
      | some fd => PyVal.stream fd
    else
      match a.stderr with
      | none => PyVal.nonePy
      | some fd => PyVal.stream fd
  -- env = env if (env is not None) else os.environ.copy()
  let resolved : Heap × Nat := match a.env with
    | some r => (h, r)
    | none => h.copyDict sys.osEnvironRef
  let h := resolved.1
  let envRef := resolved.2
  -- kwargs = kw.copy(); kwargs.update(main_args)
  let kwargs := a.kw
  let kwargs := dset kwargs "stdin" _stdin
  let kwargs := dset kwargs "stdout" _stdout
  let kwargs := dset kwargs "stderr" _stderr
  let kwargs := dset kwargs "cwd"
    (match a.cwd with | none => PyVal.nonePy | some s => PyVal.str s)
  let kwargs := dset kwargs "env" (PyVal.envRef envRef)
  if sys.isWin32 then
    -- if cwd: kwargs["cwd"] = cwd   (`if cwd:` — None and "" are falsy)
    let kwargs := match a.cwd with
      | some s => if s = "" then kwargs else dset kwargs "cwd" (PyVal.str s)
      | none => kwargs
    let interrupt_event := create_interrupt_event sys
    -- env["JPY_INTERRUPT_EVENT"] = str(interrupt_event)
    let h := h.setKey envRef "JPY_INTERRUPT_EVENT" (toString interrupt_event)
    -- env["IPY_INTERRUPT_EVENT"] = env["JPY_INTERRUPT_EVENT"]
    let h := h.setKey envRef "IPY_INTERRUPT_EVENT"
      ((dget (h.get envRef) "JPY_INTERRUPT_EVENT").getD "")
    -- independent: creationflags; else DuplicateHandle + JPY_PARENT_PID
    let step : Kwargs × Heap :=
      if a.independent then
        (dset kwargs "creationflags" (PyVal.int CREATE_NEW_PROCESS_GROUP), h)
      else
        (kwargs, h.setKey envRef "JPY_PARENT_PID" (toString sys.parentHandle))
    let kwargs := step.1
    let h := step.2
    -- if redirect_out: kwargs["creationflags"] = kwargs.setdefault("creationflags", 0) | CREATE_NO_WINDOW
    let kwargs :=
      if redirect_out then
        let current : Nat := match dget kwargs "creationflags" with
          | some (PyVal.int n) => n
          | _ => 0     -- a non-integer creationflags in `kw` would TypeError in Python
        dset kwargs "creationflags" (PyVal.int (Nat.lor current CREATE_NO_WINDOW))
      else kwargs
    -- kwargs["close_fds"] = False
    let kwargs := dset kwargs "close_fds" (PyVal.bool false)
    ⟨kwargs, some interrupt_event, h, envRef⟩
  else
    -- interrupt_event = None; kwargs["start_new_session"] = True
    let kwargs := dset kwargs "start_new_session" (PyVal.bool true)
    -- if not independent: env["JPY_PARENT_PID"] = str(os.getpid())
    let h := if a.independent then h
             else h.setKey envRef "JPY_PARENT_PID" (toString sys.pid)
    ⟨kwargs, none, h, envRef⟩

/-! ## `os.path.expanduser` (posixpath semantics)

The source maps `os.path.expanduser` over the command list.  CPython's
`posixpath.expanduser`: a path not starting with `~` is returned unchanged;
otherwise the part between the `~` and the first `/` names a user — empty
means the invoking user, whose home is `os.environ["HOME"]` (modelled as
`sys.home`, assumed set), non-empty is looked up in the password database
(modelled as `sys.userdb`) and the path is returned *unchanged* when the
lookup fails; the chosen home is stripped of trailing slashes and prepended
to the remainder, with an empty result becoming the root `/`. -/

/-- `userhome.rstrip('/')`. -/
def rstripSlash (cs : List Char) : List Char :=
  (cs.reverse.dropWhile (fun c => c = '/')).reverse

def expanduserList (sys : Sys) (cs : List Char) : List Char :=
  match cs with
  | [] => []
  | c :: tail =>
      if c = '~' then
        let user := tail.takeWhile (fun ch => ch ≠ '/')
        let rest := tail.dropWhile (fun ch => ch ≠ '/')
        let userhome : Option (List Char) :=
          if user = [] then some sys.home.toList
          else match sys.userdb (String.mk user) with
            | some d => some d.toList
            | none => none
        match userhome with
        | none => c :: tail                 -- except KeyError: return path
        | some uh =>
            let r := rstripSlash uh ++ rest
            if r = [] then ['/'] else r     -- `return (userhome + path[i:]) or root`
      else c :: tail

/-! ## `os.path.expanduser` (ntpath semantics, CPython 3.11)

On win32 `os.path` is `ntpath`.  The functions below transcribe CPython
3.11's `ntpath.splitdrive`, `split`/`dirname`/`basename`, the two-argument
`join`, and `expanduser`, over char lists; the environment values they
consult are the ambient `Sys` fields. -/

/-- Membership in `'\\/'`, the two Windows path separators. -/
def isNtSep (c : Char) : Bool := c = '\\' || c = '/'

/-- `s.find(c, start)`: index of the first occurrence of `c` at position
`start` or later; `none` for Python's `-1`. -/
def findCharFrom (cs : List Char) (c : Char) (start : Nat) : Option Nat :=
  match (cs.drop start).findIdx? (fun x => x = c) with
  | none => none
  | some j => some (start + j)

/-- `ntpath.splitdrive` (CPython 3.11). -/
def ntSplitdrive (p : List Char) : List Char × List Char :=
  if 2 ≤ p.length then
    -- normp = p.replace(altsep, sep)
    let normp := p.map (fun c => if c = '/' then '\\' else c)
    if normp.take 2 = ['\\', '\\'] then
      -- UNC and device drives; a `\\?\UNC\` prefix moves the scan start to 8
      let start := if (normp.take 8).map Char.toUpper = "\\\\?\\UNC\\".toList
                   then 8 else 2
      match findCharFrom normp '\\' start with
      | none => (p, [])
      | some index =>
          match findCharFrom normp '\\' (index + 1) with
          | none => (p, [])
          | some index2 => (p.take index2, p.drop index2)
    else if (normp.drop 1).take 1 = [':'] then
      -- drive-letter drives, e.g. X:
      (p.take 2, p.drop 2)
    else ([], p)
  else ([], p)

/-- `ntpath.split` (CPython 3.11): head up to the last separator (trailing
separators stripped unless the head is all separators), tail after it. -/
def ntSplitList (p : List Char) : List Char × List Char :=
  let dr := ntSplitdrive p
  let q := dr.2
  let tail := (q.reverse.takeWhile (fun c => !(isNtSep c))).reverse
  let head := (q.reverse.dropWhile (fun c => !(isNtSep c))).reverse
  -- head = head.rstrip(seps) or head
  let h2 := (head.reverse.dropWhile isNtSep).reverse
  let h3 := if h2 = [] then head else h2
  (dr.1 ++ h3, tail)

def ntDirnameList (p : List Char) : List Char := (ntSplitList p).1

def ntBasenameList (p : List Char) : List Char := (ntSplitList p).2

def headIsSep (cs : List Char) : Bool :=
  match cs with
  | c :: _ => isNtSep c
  | [] => false

def lastIsSep (cs : List Char) : Bool :=
  match cs.getLast? with
  | some c => isNtSep c
  | none => false

def lastIsColon (cs : List Char) : Bool :=
  match cs.getLast? with
  | some c => c = ':'
  | none => false

/-- `ntpath.join` (CPython 3.11), for the two-argument calls `expanduser`
performs. -/
def ntJoinList (path p : List Char) : List Char :=
  let rd := ntSplitdrive path
  let pd := ntSplitdrive p
  let joined : List Char × List Char :=
    if pd.2 ≠ [] ∧ headIsSep pd.2 then
      -- second path is absolute
      (if pd.1 ≠ [] ∨ rd.1 = [] then pd.1 else rd.1, pd.2)
    else if pd.1 ≠ [] ∧ pd.1 ≠ rd.1 then
      if pd.1.map Char.toLower ≠ rd.1.map Char.toLower then
        -- different drives: ignore the first path entirely
        (pd.1, pd.2)
      else
        -- same drive in different case
        (pd.1, (if rd.2 ≠ [] ∧ ¬ lastIsSep rd.2 then rd.2 ++ ['\\'] else rd.2) ++ pd.2)
    else
      -- second path is relative to the first
      (rd.1, (if rd.2 ≠ [] ∧ ¬ lastIsSep rd.2 then rd.2 ++ ['\\'] else rd.2) ++ pd.2)
  -- add separator between UNC and non-absolute path
  if joined.2 ≠ [] ∧ ¬ headIsSep joined.2 ∧ joined.1 ≠ [] ∧ ¬ lastIsColon joined.1 then
    joined.1 ++ '\\' :: joined.2
  else joined.1 ++ joined.2

/-- The profile-directory resolution of `ntpath.expanduser` (CPython 3.11):
`USERPROFILE` if set; else, if `HOMEPATH` is unset, no home (the path is
returned unchanged); else `join(HOMEDRIVE or '', HOMEPATH)`. -/
def ntUserhome (sys : Sys) : Option (List Char) :=
  match sys.userprofile with
  | some uh => some uh.toList
  | none =>
      match sys.homepath with
      | none => none
      | some hp => some (ntJoinList (sys.homedrive.getD "").toList hp.toList)

/-- `ntpath.expanduser` (CPython 3.11).  `user = path[1:i]` is everything
between the `~` and the first separator and `rest = path[i:]`.  For `~user`
with `user` different from `USERNAME`, the sibling profile directory
`join(dirname(userhome), user)` is guessed, but only when `USERNAME` is the
basename of the resolved profile directory — otherwise the path is returned
unchanged. -/
def ntExpanduserList (sys : Sys) (cs : List Char) : List Char :=
  match cs with
  | [] => []
  | c :: tail =>
      if c = '~' then
        let user := tail.takeWhile (fun ch => !(isNtSep ch))
        let rest := tail.dropWhile (fun ch => !(isNtSep ch))
        match ntUserhome sys with
        | none => c :: tail
        | some uh =>
            if user = [] then uh ++ rest
            else if sys.username = some (String.mk user) then uh ++ rest
            else if sys.username = some (String.mk (ntBasenameList uh)) then
              ntJoinList (ntDirnameList uh) user ++ rest
            else c :: tail
      else c :: tail

/-- `os.path.expanduser`, dispatched by platform: `ntpath.expanduser` when
the interpreter runs on win32, `posixpath.expanduser` otherwise. -/
def expanduser (sys : Sys) (p : String) : String :=
  if sys.isWin32 then String.mk (ntExpanduserList sys p.toList)
  else String.mk (expanduserList sys p.toList)

/-! ## Python `repr` fragments used by the failure diagnostic -/

/-- Python `repr` of a plain string (no characters needing escapes). -/
def reprStr (s : String) : String := "'" ++ s ++ "'"

/-- `str`/`repr` of a list of strings. -/
def reprStrList (l : List String) : String :=
  "[" ++ String.intercalate ", " (l.map reprStr) ++ "]"

/-- `repr` of a kwargs value. -/
def reprPyVal : PyVal → String
  | PyVal.pipe => "-1"                  -- repr(subprocess.PIPE)
  | PyVal.blackhole => "<devnull>"      -- the opened os.devnull file object
  | PyVal.stream fd => toString fd
  | PyVal.nonePy => "None"
  | PyVal.str s => reprStr s
  | PyVal.envRef _ => "\x7benv\x7d"     -- never shown: env is filtered out
  | PyVal.bool b => if b then "True" else "False"
  | PyVal.int n => toString n

/-- `repr` of the kwargs dict. -/
def reprKwargs (kw : Kwargs) : String :=
  "\x7b" ++
    String.intercalate ", "
      (kw.map (fun kv => reprStr kv.1 ++ ": " ++ reprPyVal kv.2)) ++
  "\x7d"

/-! ## Exceptions and the failure handler -/

/-- Exceptions crossing the boundary.  `oserror` stands for whatever the OS
spawn primitive raised (e.g. `FileNotFoundError`). -/
inductive Exc : Type
  | oserror (msg : String)
  deriving DecidableEq

/-- Outcome of `_handle_subprocess_exception`: the error-log invocations it
performed and the exception it raised to the caller. -/
structure HandlerOut where
  logs : List String
  raised : Exc
  deriving DecidableEq

/-- Translation of `_handle_subprocess_exception` (launcher.py lines 141-158).
The body of the `try` builds the message and calls `get_logger().error(msg)`;
`env` here is the launch function's *original* `env` parameter, so when the
caller supplied no environment `env.get(...)` raises `AttributeError` on
`None` and no log call happens.  Whatever the `try` body did, the
`finally: raise exc` replaces any in-flight exception, so the caller always
observes `exc`. -/
def _handle_subprocess_exception (sys : Sys) (h : Heap) (exc : Exc)
    (cmd : List String) (env : Option Nat) (kwargs : Kwargs) : HandlerOut :=
  let attempted : Option String :=      -- some msg iff the try body completed
    match env with
    | none => none                      -- env.get on None: AttributeError
    | some r =>
        -- without_env = {k: v for k, v in kwargs.items() if k != 'env'}
        let without_env := kwargs.filter (fun kv => kv.1 ≠ "env")
        -- msg.format(cmd, env.get('PATH', os.defpath), without_env)
        let msg :=
          "Failed to run command:\n" ++ reprStrList cmd ++
          "\n    PATH=" ++ reprStr ((dget (h.get r) "PATH").getD sys.defpath) ++
          "\n    with kwargs:\n" ++ reprKwargs without_env ++ "\n"
        if sys.loggerFails then none else some msg
  { logs := match attempted with | some m => [m] | none => [],
    raised := exc }

/-! ## The spawned process and the launch functions -/

/-- The value returned by the OS spawn primitive, as far as the launcher
touches it: the executed argument list, the keyword arguments it received,
whether it came from `asyncio.create_subprocess_exec`, whether the launcher
closed its stdin, and the attribute patched on by `_finish_process_launch`. -/
structure Subprocess where
  args : List String
  kwargs : Kwargs
  fromAsyncio : Bool
  stdinClosed : Bool
  win32_interrupt_event : Option Nat
  deriving DecidableEq

/-- `subprocess.Popen(cmd, **kwargs)` on success. -/
def Popen (cmd : List String) (kwargs : Kwargs) : Subprocess :=
  ⟨cmd, kwargs, false, false, none⟩

/-- `await asyncio.create_subprocess_exec(*cmd, **kwargs)` on success. -/
def create_subprocess_exec (cmd : List String) (kwargs : Kwargs) : Subprocess :=
  ⟨cmd, kwargs, true, false, none⟩

/-- Translation of `_finish_process_launch` (launcher.py lines 276-289). -/
def _finish_process_launch (sys : Sys) (proc : Subprocess)
    (stdin : Option Nat) (interrupt_event : Option Nat) : Subprocess :=
  -- if sys.platform == "win32": subprocess.win32_interrupt_event = interrupt_event
  let proc := if sys.isWin32 then
      { proc with win32_interrupt_event := interrupt_event }
    else proc
  -- if stdin is None: subprocess.stdin.close()
  if stdin = none then { proc with stdinClosed := true } else proc

/-- Observable outcome of a launch call: the returned process or the raised
exception, the error-log invocations, and the final heap. -/
structure LaunchOut where
  result : Except Exc Subprocess
  logs : List String
  heap : Heap

/-- Translation of `launch_kernel` (launcher.py lines 21-76).  `spawnExc` is
the spawn-primitive oracle: `none` means `Popen` returns a process, `some e`
means it raises `e`. -/
def launch_kernel (sys : Sys) (h : Heap) (cmd : List String) (a : PrepArgs)
    (spawnExc : Option Exc) : LaunchOut :=
  let p := _prepare_process_args sys h a
  -- cmd = list(map(os.path.expanduser, cmd))
  let cmd := cmd.map (expanduser sys)
  match spawnExc with
  | some exc =>
      let out := _handle_subprocess_exception sys p.heap exc cmd a.env p.kwargs
      { result := Except.error out.raised, logs := out.logs, heap := p.heap }
  | none =>
      let proc := Popen cmd p.kwargs
      let proc := _finish_process_launch sys proc a.stdin p.interrupt_event
      { result := Except.ok proc, logs := [], heap := p.heap }

/-- Translation of `async_launch_kernel` (launcher.py lines 79-138): identical
plan construction; on win32 the synchronous `Popen` is used, otherwise
`asyncio.create_subprocess_exec`. -/
def async_launch_kernel (sys : Sys) (h : Heap) (cmd : List String)
    (a : PrepArgs) (spawnExc : Option Exc) : LaunchOut :=
  let p := _prepare_process_args sys h a
  let cmd := cmd.map (expanduser sys)
  match spawnExc with
  | some exc =>
      let out := _handle_subprocess_exception sys p.heap exc cmd a.env p.kwargs
      { result := Except.error out.raised, logs := out.logs, heap := p.heap }
  | none =>
      let proc := if sys.isWin32 then Popen cmd p.kwargs
                  else create_subprocess_exec cmd p.kwargs
      let proc := _finish_process_launch sys proc a.stdin p.interrupt_event
      { result := Except.ok proc, logs := [], heap := p.heap }

/-! ## Derived views used in the claim statements -/

/-- The contents of the environment dict handed to the OS spawn primitive
(the dict stored under `kwargs["env"]`), after `_prepare_process_args`. -/
def spawnEnvOf (sys : Sys) (h : Heap) (a : PrepArgs) : EnvMap :=
  (_prepare_process_args sys h a).heap.get (_prepare_process_args sys h a).envRef

/-- The environment contents the request started from: the caller-supplied
dict when there is one, otherwise `os.environ`. -/
def baseEnvOf (sys : Sys) (h : Heap) (a : PrepArgs) : EnvMap :=
  match a.env with
  | some r => h.get r
  | none => h.get sys.osEnvironRef

/-- The explicitly resolved stdin: `PIPE if stdin is None else stdin`. -/
def resolvedStdin (a : PrepArgs) : PyVal :=
  match a.stdin with
  | none => PyVal.pipe
  | some fd => PyVal.stream fd

/-- The explicitly resolved stdout. -/
def resolvedStdout (sys : Sys) (a : PrepArgs) : PyVal :=
  if sys.pythonw then
    match a.stdout with
    | none => PyVal.blackhole
    | some fd => PyVal.stream fd
  else
    match a.stdout with
    | none => PyVal.nonePy
    | some fd => PyVal.stream fd

/-- The explicitly resolved stderr. -/
def resolvedStderr (sys : Sys) (a : PrepArgs) : PyVal :=
  if sys.pythonw then
    match a.stderr with
    | none => PyVal.blackhole
    | some fd => PyVal.stream fd
  else
    match a.stderr with
    | none => PyVal.nonePy
    | some fd => PyVal.stream fd

/-- The explicitly resolved cwd value. -/
def resolvedCwd (a : PrepArgs) : PyVal :=
  match a.cwd with
  | none => PyVal.nonePy
  | some s => PyVal.str s

/-- The part of the returned process the spawn plan determines (everything
but the marker saying which primitive created it). -/
def Subprocess.plan (p : Subprocess) : List String × Kwargs × Bool × Option Nat :=
  (p.args, p.kwargs, p.stdinClosed, p.win32_interrupt_event)

/-! ## Concrete fixtures used by counterexamples and witnesses -/

/-- A POSIX host: pid 42, default PATH `/bin:/usr/bin`, home `/home/u`,
empty password database, working logger. -/
def sysP : Sys :=
  { isWin32 := false
    pythonw := false
    pid := 42
    parentHandle := 99
    interruptEvent := 7
    osEnvironRef := 0
    defpath := "/bin:/usr/bin"
    home := "/home/u"
    userdb := fun _ => none
    userprofile := none
    homepath := none
    homedrive := none
    username := none
    loggerFails := false }

/-- The same host seen as win32: profile `C:\Users\u` for user `u`. -/
def sysW : Sys :=
  { sysP with
    isWin32 := true
    userprofile := some "C:\\Users\\u"
    username := some "u" }

/-- `os.environ` lives at reference 0 and holds only `PATH`; the dict object
at reference 1 (a caller-supplied environment) is empty. -/
def heap0 : Heap :=
  { store := fun i => if i = 0 then [("PATH", "/usr/bin")] else []
    next := 2 }

/-- Like `heap0`, but the caller-supplied dict at reference 1 already holds a
`JPY_PARENT_PID` entry. -/
def heapPre : Heap :=
  { store := fun i =>
      if i = 0 then [("PATH", "/usr/bin")]
      else if i = 1 then [("JPY_PARENT_PID", "7")] else []
    next := 2 }

/-- A request supplying the environment dict at reference 1, nothing else. -/
def argsA : PrepArgs :=
  { stdin := none
    stdout := none
    stderr := none
    env := some 1
    independent := false
    cwd := none
    kw := [] }

/-- The same request with no caller-supplied environment. -/
def argsNoEnv : PrepArgs :=
  { argsA with env := none }

/-- The same request marked independent. -/
def argsIndep : PrepArgs :=
  { argsA with independent := true }

/-- The process returned by a successful launch of `["k"]` on `sysW`. -/
def procW : Subprocess :=
  match (launch_kernel sysW heap0 ["k"] argsA none).result with
  | Except.ok p => p
  | Except.error _ => Popen [] []

/-- The process returned by a successful sync launch of a `~`-command. -/
def procTilde : Subprocess :=
  match (launch_kernel sysP heap0 ["~alice/bin/run"] argsA none).result with
  | Except.ok p => p
  | Except.error _ => Popen [] []

/-- The process returned by a successful sync launch of `["~/bin/run", "--flag"]`. -/
def procHome : Subprocess :=
  match (launch_kernel sysP heap0 ["~/bin/run", "--flag"] argsA none).result with
  | Except.ok p => p
  | Except.error _ => Popen [] []

/-- The process returned by a successful async launch of `["k"]` on `sysW`. -/
def procAW : Subprocess :=
  match (async_launch_kernel sysW heap0 ["k"] argsA none).result with
  | Except.ok p => p
  | Except.error _ => Popen [] []

/-- The process returned by a successful sync launch of `["k"]` on `sysP`. -/
def procP : Subprocess :=
  match (launch_kernel sysP heap0 ["k"] argsA none).result with
  | Except.ok p => p
  | Except.error _ => Popen [] []

/-! ## Dictionary and heap lemmas -/

theorem dget_dset {α : Type} (m : List (String × α)) (k k' : String) (v : α) :
    dget (dset m k' v) k = if k' = k then some v else dget m k := by
  induction m with
  | nil =>
      by_cases hk : k' = k <;> simp [dset, dget, hk]
  | cons hd tl ih =>
      obtain ⟨k₀, v₀⟩ := hd
      by_cases h0 : k₀ = k'
      · subst h0
        by_cases hk : k₀ = k <;> simp [dset, dget, hk]
      · by_cases hk : k₀ = k
        · subst hk
          have h1 : ¬ k₀ = k' := h0
          have h2 : ¬ k' = k₀ := fun h' => h0 h'.symm
          simp [dset, h1, dget, h2]
        · simp [dset, h0, dget, hk, ih]

theorem dget_dset_self {α : Type} (m : List (String × α)) (k : String) (v : α) :
    dget (dset m k v) k = some v := by
  simp [dget_dset]

theorem dget_dset_ne {α : Type} (m : List (String × α)) (k k' : String) (v : α)
    (h : k' ≠ k) : dget (dset m k' v) k = dget m k := by
  simp [dget_dset, h]

theorem Heap.get_setKey_self (h : Heap) (r : Nat) (k v : String) :
    (h.setKey r k v).get r = dset (h.get r) k v := by
  simp [Heap.setKey, Heap.get]

theorem Heap.get_setKey_ne (h : Heap) (r r' : Nat) (k v : String) (hne : r' ≠ r) :
    (h.setKey r k v).get r' = h.get r' := by
  simp [Heap.setKey, Heap.get, hne]

theorem Heap.get_copyDict_new (h : Heap) (r : Nat) :
    (h.copyDict r).1.get (h.copyDict r).2 = h.get r := by
  simp [Heap.copyDict, Heap.get]

theorem Heap.get_copyDict_old (h : Heap) (r i : Nat) (hi : i ≠ h.next) :
    (h.copyDict r).1.get i = h.get i := by
  simp [Heap.copyDict, Heap.get, hi]

theorem Heap.next_copyDict (h : Heap) (r : Nat) : (h.copyDict r).2 = h.next := rfl

/-! ## Facts about the prepared kwargs dictionary -/

theorem kwargs_stdin_eq (sys : Sys) (h : Heap) (a : PrepArgs) :
    dget (_prepare_process_args sys h a).kwargs "stdin" = some (resolvedStdin a) := by
  cases hw : sys.isWin32 <;> cases hpw : sys.pythonw <;> cases hind : a.independent <;>
    cases hcwd : a.cwd <;>
      simp [_prepare_process_args, hw, hpw, hind, hcwd, resolvedStdin, dget_dset] <;>
    split <;> simp [dget_dset]

theorem kwargs_stdout_eq (sys : Sys) (h : Heap) (a : PrepArgs) :
    dget (_prepare_process_args sys h a).kwargs "stdout" = some (resolvedStdout sys a) := by
  cases hw : sys.isWin32 <;> cases hpw : sys.pythonw <;> cases hind : a.independent <;>
    cases hcwd : a.cwd <;>
      simp [_prepare_process_args, hw, hpw, hind, hcwd, resolvedStdout, dget_dset] <;>
    split <;> simp [dget_dset]

theorem kwargs_stderr_eq (sys : Sys) (h : Heap) (a : PrepArgs) :
    dget (_prepare_process_args sys h a).kwargs "stderr" = some (resolvedStderr sys a) := by
  cases hw : sys.isWin32 <;> cases hpw : sys.pythonw <;> cases hind : a.independent <;>
    cases hcwd : a.cwd <;>
      simp [_prepare_process_args, hw, hpw, hind, hcwd, resolvedStderr, dget_dset] <;>
    split <;> simp [dget_dset]

theorem kwargs_cwd_eq (sys : Sys) (h : Heap) (a : PrepArgs) :
    dget (_prepare_process_args sys h a).kwargs "cwd" = some (resolvedCwd a) := by
  cases hw : sys.isWin32 <;> cases hpw : sys.pythonw <;> cases hind : a.independent <;>
    cases hcwd : a.cwd <;>
      simp [_prepare_process_args, hw, hpw, hind, hcwd, resolvedCwd, dget_dset] <;>
    split <;> simp [dget_dset]

theorem kwargs_env_eq (sys : Sys) (h : Heap) (a : PrepArgs) :
    dget (_prepare_process_args sys h a).kwargs "env"
      = some (PyVal.envRef (_prepare_process_args sys h a).envRef) := by
  cases hw : sys.isWin32 <;> cases hpw : sys.pythonw <;> cases hind : a.independent <;>
    cases hcwd : a.cwd <;>
      simp [_prepare_process_args, hw, hpw, hind, hcwd, dget_dset] <;>
    split <;> simp [dget_dset]

/-- On a successful launch, the launch result is `Except.ok` of
`_finish_process_launch` applied to the `Popen` result. -/
theorem launch_ok_eq (sys : Sys) (h : Heap) (cmd : List String) (a : PrepArgs) :
    (launch_kernel sys h cmd a none).result
      = Except.ok
          (_finish_process_launch sys
            (Popen (cmd.map (expanduser sys)) (_prepare_process_args sys h a).kwargs)
            a.stdin (_prepare_process_args sys h a).interrupt_event) := rfl

/-! # Claim theorems -/

/-- C6: for every spawn failure — on any platform, with or without a
caller-supplied environment (whose absence makes the message construction
itself raise), and whether or not the logging call raises (`sys.loggerFails`)
— the exception observed by the caller of either launch path is the original
exception raised by the OS spawn primitive, unchanged: the
`finally: raise exc` of `_handle_subprocess_exception` guarantees it. -/
theorem spawn_failure_reraises_original (sys : Sys) (h : Heap) (cmd : List String)
    (a : PrepArgs) (exc : Exc) :
    (launch_kernel sys h cmd a (some exc)).result = Except.error exc
  ∧ (async_launch_kernel sys h cmd a (some exc)).result = Except.error exc :=
  ⟨rfl, rfl⟩

/-- C10: entries of the open-ended `**kw` bag colliding with the explicit
parameters `stdin`, `stdout`, `stderr`, `cwd`, `env` are overwritten by the
explicitly resolved values when the spawn-argument dictionary is built
(`kwargs.update(main_args)` runs after `kw.copy()`), for every request. -/
theorem explicit_args_override_kw_bag (sys : Sys) (h : Heap) (a : PrepArgs) :
    dget (_prepare_process_args sys h a).kwargs "stdin" = some (resolvedStdin a)
  ∧ dget (_prepare_process_args sys h a).kwargs "stdout" = some (resolvedStdout sys a)
  ∧ dget (_prepare_process_args sys h a).kwargs "stderr" = some (resolvedStderr sys a)
  ∧ dget (_prepare_process_args sys h a).kwargs "cwd" = some (resolvedCwd a)
  ∧ dget (_prepare_process_args sys h a).kwargs "env"
      = some (PyVal.envRef (_prepare_process_args sys h a).envRef) :=
  ⟨kwargs_stdin_eq sys h a, kwargs_stdout_eq sys h a, kwargs_stderr_eq sys h a,
   kwargs_cwd_eq sys h a, kwargs_env_eq sys h a⟩

/-- C7: when the caller supplies no stdin, the stdin handed to the OS spawn
primitive is `PIPE` (never Python `None`), and after a successful launch the
launcher-side stdin of the returned process is closed; a caller-supplied
stdin is passed through and left open. -/
theorem stdin_pipe_and_close (sys : Sys) (h : Heap) (cmd : List String) (a : PrepArgs) :
    dget (_prepare_process_args sys h a).kwargs "stdin" = some (resolvedStdin a)
  ∧ resolvedStdin a ≠ PyVal.nonePy
  ∧ (a.stdin = none → resolvedStdin a = PyVal.pipe)
  ∧ (∀ fd, a.stdin = some fd → resolvedStdin a = PyVal.stream fd)
  ∧ (∀ proc, (launch_kernel sys h cmd a none).result = Except.ok proc →
      proc.stdinClosed = a.stdin.isNone) := by
  refine ⟨kwargs_stdin_eq sys h a, ?_, ?_, ?_, ?_⟩
  · cases hs : a.stdin <;> simp [resolvedStdin, hs]
  · intro hs; simp [resolvedStdin, hs]
  · intro fd hs; simp [resolvedStdin, hs]
  · intro proc hproc
    rw [launch_ok_eq] at hproc
    cases hs : a.stdin <;> cases hw : sys.isWin32 <;>
      simp [_finish_process_launch, Popen, hs, hw] at hproc <;>
      simp [← hproc, hs]

/-- C7 witness at concrete inputs: the POSIX fixture request supplies no
stdin, so the kwargs carry `PIPE` and the returned process's stdin is
closed. -/
theorem stdin_pipe_and_close_witness :
    dget (_prepare_process_args sysP heap0 argsA).kwargs "stdin" = some PyVal.pipe
  ∧ procP.stdinClosed = true := by
  constructor
  · have h1 := (stdin_pipe_and_close sysP heap0 ["k"] argsA).1
    have h2 := (stdin_pipe_and_close sysP heap0 ["k"] argsA).2.2.1 rfl
    rw [h1, h2]
  · have h3 := (stdin_pipe_and_close sysP heap0 ["k"] argsA).2.2.2.2 procP rfl
    rw [h3]
    rfl

/-- C4 counterexample: a POSIX request with `independent = true` whose
caller-supplied environment already holds `JPY_PARENT_PID` (as happens when
the launching process is itself a kernel): the key is present in the spawn
environment, while the claim requires it to be absent. -/
theorem independent_env_retains_parent_pid :
    argsIndep.independent = true
  ∧ sysP.isWin32 = false
  ∧ dget (spawnEnvOf sysP heapPre argsIndep) "JPY_PARENT_PID" = some "7" :=
  ⟨rfl, rfl, rfl⟩

/-- C4 (amended): with `independent = false` the spawn environment holds
`JPY_PARENT_PID` — the stringified pid on POSIX, the duplicated inheritable
handle on win32; with `independent = true` on POSIX the launcher neither adds
nor removes the key, so it is present exactly when the base environment
(the caller's mapping, or the copy of `os.environ`) already held it — in
particular absent whenever the base environment lacked it. -/
theorem parent_pid_key (sys : Sys) (h : Heap) (a : PrepArgs) :
    (a.independent = false →
       dget (spawnEnvOf sys h a) "JPY_PARENT_PID"
         = some (toString (if sys.isWin32 then sys.parentHandle else sys.pid)))
  ∧ (a.independent = true → sys.isWin32 = false →
       dget (spawnEnvOf sys h a) "JPY_PARENT_PID"
         = dget (baseEnvOf sys h a) "JPY_PARENT_PID") := by
  constructor
  · intro hind
    cases hw : sys.isWin32 <;>
      simp [spawnEnvOf, _prepare_process_args, hw, hind, Heap.get_setKey_self,
            dget_dset]
  · intro hind hw
    cases henv : a.env <;>
      simp [spawnEnvOf, baseEnvOf, _prepare_process_args, hw, hind, henv,
            Heap.get_copyDict_new]

/-- C4 witness at concrete inputs: the non-independent POSIX fixture gets
`JPY_PARENT_PID = "42"` (the parent pid), and the independent request over an
empty caller environment ends with the key absent. -/
theorem parent_pid_key_witness :
    dget (spawnEnvOf sysP heap0 argsA) "JPY_PARENT_PID" = some "42"
  ∧ dget (spawnEnvOf sysP heap0 argsIndep) "JPY_PARENT_PID" = none := by
  constructor
  · have h1 := (parent_pid_key sysP heap0 argsA).1 rfl
    rw [h1]
    rfl
  · have h2 := (parent_pid_key sysP heap0 argsIndep).2 rfl rfl
    rw [h2]
    rfl

/-- C5: on win32, for every request — independent or not — the spawn
environment carries `JPY_INTERRUPT_EVENT` (the stringified handle returned by
`create_interrupt_event`) and the deprecated alias `IPY_INTERRUPT_EVENT` with
the identical value, and after a successful launch the returned process
carries the same token in its `win32_interrupt_event` attribute. -/
theorem win32_interrupt_token (sys : Sys) (h : Heap) (cmd : List String)
    (a : PrepArgs) (hwin : sys.isWin32 = true) :
    dget (spawnEnvOf sys h a) "JPY_INTERRUPT_EVENT"
      = some (toString (create_interrupt_event sys))
  ∧ dget (spawnEnvOf sys h a) "IPY_INTERRUPT_EVENT"
      = dget (spawnEnvOf sys h a) "JPY_INTERRUPT_EVENT"
  ∧ (∀ proc, (launch_kernel sys h cmd a none).result = Except.ok proc →
      proc.win32_interrupt_event = some (create_interrupt_event sys)) := by
  refine ⟨?_, ?_, ?_⟩
  · cases hind : a.independent <;>
      simp [spawnEnvOf, _prepare_process_args, hwin, hind, Heap.get_setKey_self,
            dget_dset]
  · cases hind : a.independent <;>
      simp [spawnEnvOf, _prepare_process_args, hwin, hind, Heap.get_setKey_self,
            dget_dset]
  · intro proc hproc
    rw [launch_ok_eq] at hproc
    cases hs : a.stdin <;>
      simp [_finish_process_launch, Popen, hs, hwin, _prepare_process_args] at hproc <;>
      cases hind : a.independent <;>
      simp [← hproc, _prepare_process_args, hwin, hind, create_interrupt_event]

/-- C5 witness at concrete inputs: on the win32 fixture (interrupt handle 7)
both environment keys hold `"7"` and the returned process carries token 7. -/
theorem win32_interrupt_token_witness :
    dget (spawnEnvOf sysW heap0 argsA) "JPY_INTERRUPT_EVENT" = some "7"
  ∧ dget (spawnEnvOf sysW heap0 argsA) "IPY_INTERRUPT_EVENT" = some "7"
  ∧ procW.win32_interrupt_event = some 7 := by
  refine ⟨?_, ?_, ?_⟩
  · have h1 := (win32_interrupt_token sysW heap0 ["k"] argsA rfl).1
    rw [h1]
    rfl
  · have h2 := (win32_interrupt_token sysW heap0 ["k"] argsA rfl).2.1
    rw [h2]
    have h1 := (win32_interrupt_token sysW heap0 ["k"] argsA rfl).1
    rw [h1]
    rfl
  · exact (win32_interrupt_token sysW heap0 ["k"] argsA rfl).2.2 procW rfl

/-- C1 counterexample: a launch with a caller-supplied environment mapping
(the empty dict at reference 1) and `independent = false` on POSIX mutates
the caller's dict object in place: after the call it holds the injected
`JPY_PARENT_PID` key.  The injected key did not land on a copy. -/
theorem launch_mutates_caller_env :
    argsA.env = some 1
  ∧ heap0.get 1 = []
  ∧ (launch_kernel sysP heap0 ["kernel"] argsA none).heap.get 1
      = [("JPY_PARENT_PID", "42")] :=
  ⟨rfl, rfl, rfl⟩

/-- C1 (amended): a launch call never mutates the real process environment
(`os.environ`): when the caller supplies no mapping the injected keys land on
a fresh copy of it.  But when the caller supplies an environment mapping, the
keys are injected into that very object (`kwargs["env"]` is the caller's
reference), mutating it in place. -/
theorem os_environ_never_mutated (sys : Sys) (h : Heap) (cmd : List String)
    (a : PrepArgs) (spawnExc : Option Exc)
    (hos : sys.osEnvironRef < h.next)
    (henv : ∀ r, a.env = some r → r ≠ sys.osEnvironRef) :
    (launch_kernel sys h cmd a spawnExc).heap.get sys.osEnvironRef
      = h.get sys.osEnvironRef
  ∧ (a.env = none → (_prepare_process_args sys h a).envRef = h.next)
  ∧ (∀ r, a.env = some r → (_prepare_process_args sys h a).envRef = r) := by
  have hheap : (launch_kernel sys h cmd a spawnExc).heap
      = (_prepare_process_args sys h a).heap := by
    cases spawnExc <;> rfl
  refine ⟨?_, ?_, ?_⟩
  · rw [hheap]
    cases henv' : a.env with
    | some r =>
        have hr : r ≠ sys.osEnvironRef := henv r henv'
        have hr2 : sys.osEnvironRef ≠ r := Ne.symm hr
        cases hw : sys.isWin32 <;> cases hind : a.independent <;>
          simp [_prepare_process_args, hw, hind, henv', Heap.get_setKey_ne, hr2]
    | none =>
        have hne : sys.osEnvironRef ≠ h.next := Nat.ne_of_lt hos
        cases hw : sys.isWin32 <;> cases hind : a.independent <;>
          simp [_prepare_process_args, hw, hind, henv', Heap.next_copyDict,
                Heap.get_setKey_ne, Heap.get_copyDict_old, hne]
  · intro henv'
    cases hw : sys.isWin32 <;>
      simp [_prepare_process_args, hw, henv', Heap.next_copyDict]
  · intro r henv'
    cases hw : sys.isWin32 <;> simp [_prepare_process_args, hw, henv']

/-- C1 witness at concrete inputs: with the caller-supplied dict at
reference 1 and `os.environ` at reference 0, a launch leaves `os.environ`
unchanged and the spawn environment is the caller's own object. -/
theorem os_environ_never_mutated_witness :
    (launch_kernel sysP heap0 ["kernel"] argsA none).heap.get 0 = heap0.get 0
  ∧ (_prepare_process_args sysP heap0 argsA).envRef = 1 := by
  have h0 : sysP.osEnvironRef < heap0.next := by decide
  have h1 : ∀ r, argsA.env = some r → r ≠ sysP.osEnvironRef := by
    intro r hr
    have h3 : some (1 : Nat) = some r := hr
    have h4 : (1 : Nat) = r := Option.some.inj h3
    subst h4
    decide
  exact ⟨(os_environ_never_mutated sysP heap0 ["kernel"] argsA none h0 h1).1,
         (os_environ_never_mutated sysP heap0 ["kernel"] argsA none h0 h1).2.2 1 rfl⟩

/-- C2: the code contradicts the claim (and the handler's own docstring) at
the spec's own test input.  For `cmd = ["/does/not/exist"]` with no
caller-supplied environment, the spawn failure produces zero error-log
invocations — `env.get('PATH', os.defpath)` is evaluated on the raw `env`
parameter, which is `None`, so message construction raises `AttributeError`
before `get_logger().error` runs (the `finally` still re-raises the original
exception).  With a caller-supplied environment mapping lacking `PATH`,
exactly one log invocation occurs, reporting the system default PATH. -/
theorem spawn_failure_logging_divergence :
    (launch_kernel sysP heap0 ["/does/not/exist"] argsNoEnv
        (some (Exc.oserror "ENOENT"))).logs = []
  ∧ (launch_kernel sysP heap0 ["/does/not/exist"] argsNoEnv
        (some (Exc.oserror "ENOENT"))).result = Except.error (Exc.oserror "ENOENT")
  ∧ (launch_kernel sysP heap0 ["/does/not/exist"] argsA
        (some (Exc.oserror "ENOENT"))).logs
      = ["Failed to run command:\n['/does/not/exist']\n    PATH='/bin:/usr/bin'\n    with kwargs:\n\x7b'stdin': -1, 'stdout': None, 'stderr': None, 'cwd': None, 'start_new_session': True\x7d\n"] :=
  ⟨rfl, rfl, rfl⟩

/-- On a successful async launch, the result is `Except.ok` of
`_finish_process_launch` applied to the platform-selected primitive. -/
theorem async_ok_eq (sys : Sys) (h : Heap) (cmd : List String) (a : PrepArgs) :
    (async_launch_kernel sys h cmd a none).result
      = Except.ok
          (_finish_process_launch sys
            (if sys.isWin32 then
              Popen (cmd.map (expanduser sys)) (_prepare_process_args sys h a).kwargs
             else
              create_subprocess_exec (cmd.map (expanduser sys))
                (_prepare_process_args sys h a).kwargs)
            a.stdin (_prepare_process_args sys h a).interrupt_event) := rfl

/-- C8 counterexample: with an empty password database, the command element
`"~alice/bin/run"` begins with `~` yet is handed to the OS spawn primitive
unchanged — not expanded to the invoking user's home directory `/home/u` —
because `os.path.expanduser` returns a `~user` path unchanged when the user
lookup fails. -/
theorem tilde_user_not_expanded :
    (launch_kernel sysP heap0 ["~alice/bin/run"] argsA none).result
      = Except.ok procTilde
  ∧ procTilde.args = ["~alice/bin/run"]
  ∧ "~alice/bin/run".toList.head? = some '~'
  ∧ sysP.home = "/home/u" :=
  ⟨rfl, rfl, rfl, rfl⟩

/-- C8 (amended): both launch paths hand the OS primitive
`cmd.map(os.path.expanduser)`, a platform-dispatched function, and elements
not beginning with `~` always pass through unchanged.  On POSIX
(`posixpath.expanduser`): `~` and `~/rest` expand through the invoking
user's home directory (stripped of trailing slashes); `~user...` expands to
the *named* user's home when the password-database lookup succeeds and
passes through unchanged when it fails.  On win32 (`ntpath.expanduser`):
when neither `USERPROFILE` nor `HOMEPATH` is set every `~`-element passes
through unchanged; otherwise `~` expands to the resolved profile directory;
`~user...` expands to the profile directory itself when `USERNAME` equals
`user`, to the sibling directory `join(dirname(profile), user)` when
`USERNAME` is the profile directory's basename, and passes through
unchanged otherwise. -/
theorem expanduser_amended (sys : Sys) (h : Heap) (cmd : List String) (a : PrepArgs) :
    (∀ proc, (launch_kernel sys h cmd a none).result = Except.ok proc →
        proc.args = cmd.map (expanduser sys))
  ∧ (∀ proc, (async_launch_kernel sys h cmd a none).result = Except.ok proc →
        proc.args = cmd.map (expanduser sys))
  ∧ (∀ s : String, expanduser sys s
        = String.mk (if sys.isWin32 then ntExpanduserList sys s.toList
                     else expanduserList sys s.toList))
  ∧ (∀ cs : List Char, cs.head? ≠ some '~' →
        expanduserList sys cs = cs ∧ ntExpanduserList sys cs = cs)
  ∧ (∀ rest : List Char, expanduserList sys ('~' :: '/' :: rest)
        = rstripSlash sys.home.toList ++ '/' :: rest)
  ∧ expanduserList sys ['~']
      = (if rstripSlash sys.home.toList = [] then ['/']
         else rstripSlash sys.home.toList)
  ∧ (∀ t : List Char, t.takeWhile (fun ch => ch ≠ '/') ≠ [] →
        sys.userdb (String.mk (t.takeWhile (fun ch => ch ≠ '/'))) = none →
        expanduserList sys ('~' :: t) = '~' :: t)
  ∧ (∀ (t : List Char) (d : String), t.takeWhile (fun ch => ch ≠ '/') ≠ [] →
        sys.userdb (String.mk (t.takeWhile (fun ch => ch ≠ '/'))) = some d →
        expanduserList sys ('~' :: t)
          = (if rstripSlash d.toList ++ t.dropWhile (fun ch => ch ≠ '/') = []
             then ['/']
             else rstripSlash d.toList ++ t.dropWhile (fun ch => ch ≠ '/')))
  ∧ (∀ t : List Char, ntUserhome sys = none →
        ntExpanduserList sys ('~' :: t) = '~' :: t)
  ∧ (∀ (t uh : List Char), ntUserhome sys = some uh →
        t.takeWhile (fun ch => !(isNtSep ch)) = [] →
        ntExpanduserList sys ('~' :: t)
          = uh ++ t.dropWhile (fun ch => !(isNtSep ch)))
  ∧ (∀ (t uh : List Char), ntUserhome sys = some uh →
        t.takeWhile (fun ch => !(isNtSep ch)) ≠ [] →
        sys.username = some (String.mk (t.takeWhile (fun ch => !(isNtSep ch)))) →
        ntExpanduserList sys ('~' :: t)
          = uh ++ t.dropWhile (fun ch => !(isNtSep ch)))
  ∧ (∀ (t uh : List Char), ntUserhome sys = some uh →
        t.takeWhile (fun ch => !(isNtSep ch)) ≠ [] →
        sys.username ≠ some (String.mk (t.takeWhile (fun ch => !(isNtSep ch)))) →
        sys.username = some (String.mk (ntBasenameList uh)) →
        ntExpanduserList sys ('~' :: t)
          = ntJoinList (ntDirnameList uh) (t.takeWhile (fun ch => !(isNtSep ch)))
              ++ t.dropWhile (fun ch => !(isNtSep ch)))
  ∧ (∀ (t uh : List Char), ntUserhome sys = some uh →
        t.takeWhile (fun ch => !(isNtSep ch)) ≠ [] →
        sys.username ≠ some (String.mk (t.takeWhile (fun ch => !(isNtSep ch)))) →
        sys.username ≠ some (String.mk (ntBasenameList uh)) →
        ntExpanduserList sys ('~' :: t) = '~' :: t) := by
  refine ⟨?_, ?_, ?_, ?_, ?_, ?_, ?_, ?_, ?_, ?_, ?_, ?_, ?_⟩
  · intro proc hproc
    rw [launch_ok_eq] at hproc
    cases hs : a.stdin <;> cases hw : sys.isWin32 <;>
      simp [_finish_process_launch, Popen, hs, hw] at hproc <;>
      simp [← hproc]
  · intro proc hproc
    rw [async_ok_eq] at hproc
    cases hs : a.stdin <;> cases hw : sys.isWin32 <;>
      simp [_finish_process_launch, Popen, create_subprocess_exec, hs, hw] at hproc <;>
      simp [← hproc]
  · intro s
    cases hw : sys.isWin32 <;> simp [expanduser, hw]
  · intro cs hc
    cases cs with
    | nil => exact ⟨rfl, rfl⟩
    | cons c t =>
        have hne : ¬ c = '~' := by
          intro hco
          exact hc (by simp [hco])
        constructor <;> simp [expanduserList, ntExpanduserList, hne]
  · intro rest
    simp [expanduserList]
  · simp [expanduserList]
  · intro t hne hdb
    simp only [expanduserList]
    rw [if_neg hne, hdb]
    simp
  · intro t d hne hdb
    simp only [expanduserList]
    rw [if_neg hne, hdb]
    simp
  · intro t huh
    simp only [ntExpanduserList]
    rw [huh]
    simp
  · intro t uh huh ht
    simp only [ntExpanduserList]
    rw [huh]
    simp [ht]
  · intro t uh huh ht hu
    simp only [ntExpanduserList]
    rw [huh]
    simp [ht, hu]
  · intro t uh huh ht hu hb
    have hbt : String.mk (ntBasenameList uh)
        ≠ String.mk (t.takeWhile (fun ch => !(isNtSep ch))) := by
      intro he
      apply hu
      rw [hb, he]
    simp only [ntExpanduserList]
    rw [huh]
    simp [ht, hu, hb, hbt]
  · intro t uh huh ht hu hb
    simp only [ntExpanduserList]
    rw [huh]
    simp [ht, hu, hb]

/-- C8 witness at concrete inputs: launching `["~/bin/run", "--flag"]` on the
POSIX fixture (home `/home/u`) executes `["/home/u/bin/run", "--flag"]`; the
`~/`-expansion rule applied to `~/bin` yields `/home/u` ++ `/bin`; and on the
win32 fixture (profile `C:\Users\u`, user `u`) the element `~alice/x` is
rewritten to the sibling profile directory `C:\Users\alice/x`. -/
theorem expanduser_amended_witness :
    procHome.args = ["/home/u/bin/run", "--flag"]
  ∧ expanduserList sysP ('~' :: '/' :: "bin".toList)
      = rstripSlash sysP.home.toList ++ '/' :: "bin".toList
  ∧ ntExpanduserList sysW ('~' :: "alice/x".toList) = "C:\\Users\\alice/x".toList := by
  obtain ⟨h1, h2, h3, h4, h5, h6, h7, h8, h9, h10, h11, h12, h13⟩ :=
    expanduser_amended sysP heap0 ["~/bin/run", "--flag"] argsA
  refine ⟨?_, h5 "bin".toList, ?_⟩
  · have hp := h1 procHome rfl
    rw [hp]
    rfl
  · obtain ⟨g1, g2, g3, g4, g5, g6, g7, g8, g9, g10, g11, g12, g13⟩ :=
      expanduser_amended sysW heap0 [] argsA
    have hw := g12 "alice/x".toList "C:\\Users\\u".toList (by decide) (by decide)
        (by decide) (by decide)
    rw [hw]
    decide

/-- C9: the asynchronous launch path builds exactly the same spawn plan as
the synchronous one — same log behaviour, same heap effects, and a returned
process identical in executed command, kwargs, stdin-closing, and attached
interrupt token — differing only in which OS primitive created the process;
on win32 the async path uses the synchronous `Popen` primitive, elsewhere
`asyncio.create_subprocess_exec`. -/
theorem async_sync_same_plan (sys : Sys) (h : Heap) (cmd : List String)
    (a : PrepArgs) (spawnExc : Option Exc) :
    (async_launch_kernel sys h cmd a spawnExc).logs
      = (launch_kernel sys h cmd a spawnExc).logs
  ∧ (async_launch_kernel sys h cmd a spawnExc).heap
      = (launch_kernel sys h cmd a spawnExc).heap
  ∧ Except.map Subprocess.plan (async_launch_kernel sys h cmd a spawnExc).result
      = Except.map Subprocess.plan (launch_kernel sys h cmd a spawnExc).result
  ∧ (∀ proc, sys.isWin32 = true →
       (async_launch_kernel sys h cmd a none).result = Except.ok proc →
       proc.fromAsyncio = false)
  ∧ (∀ proc, sys.isWin32 = false →
       (async_launch_kernel sys h cmd a none).result = Except.ok proc →
       proc.fromAsyncio = true) := by
  refine ⟨?_, ?_, ?_, ?_, ?_⟩
  · cases spawnExc <;> rfl
  · cases spawnExc <;> rfl
  · cases spawnExc with
    | some exc => rfl
    | none =>
        cases hs : a.stdin <;> cases hw : sys.isWin32 <;>
          simp [launch_kernel, async_launch_kernel, _finish_process_launch,
                Popen, create_subprocess_exec, Subprocess.plan, Except.map, hs, hw]
  · intro proc hw hproc
    rw [async_ok_eq, hw] at hproc
    cases hs : a.stdin <;>
      simp [_finish_process_launch, Popen, hs, hw] at hproc <;>
      simp [← hproc]
  · intro proc hw hproc
    rw [async_ok_eq, hw] at hproc
    cases hs : a.stdin <;>
      simp [_finish_process_launch, create_subprocess_exec, hs, hw] at hproc <;>
      simp [← hproc]

/-- C9 witness at concrete inputs: on the win32 fixture the async path
returned a `Popen`-created process (not an asyncio one); on the POSIX fixture
it returned an asyncio-created process. -/
theorem async_sync_same_plan_witness :
    procAW.fromAsyncio = false ∧
    (match (async_launch_kernel sysP heap0 ["k"] argsA none).result with
      | Except.ok p => p
      | Except.error _ => Popen [] []).fromAsyncio = true :=
  ⟨(async_sync_same_plan sysW heap0 ["k"] argsA none).2.2.2.1 procAW rfl rfl,
   (async_sync_same_plan sysP heap0 ["k"] argsA none).2.2.2.2 _ rfl rfl⟩

end JupyterLauncher
